import Mathlib

/-!
Verification development for the two tutorial notebooks in
`docs/docs/integrations/retrievers/self_query/vectara_self_query.ipynb`
(a Vectara self-query retriever demo and a message-history demo).

Part I embeds the vector-store side: the six ingested movie documents
(notebook cell `docs = [...]`), the recorded results of the
`retriever.invoke` cells, and a model of the filtered search that the
self-query retriever delegates to.

Part II embeds the message-history side: the in-memory `store`
dictionary, `get_session_history`, and the history-wrapped runnable's
invocation flow (lookup, chat call, append), with chat-message-history
records given explicit identities so that object-level statements
("the identical stored object", "distinct records") are expressible.

Part III embeds the notebook's code cells as a statement-level syntax
tree, to state the absence of local error handling and of local
concurrency or retry constructs.
-/

set_option maxRecDepth 8192

/-! ## Part I: documents and the vector-store query surface -/

/-- A scalar attribute value as it appears in the notebook metadata:
a string, an integer (e.g. `year: 1993`), or a one-decimal float
(e.g. `rating: 7.7`, represented as `Scalar.f 7 7`). -/
inductive Scalar where
  | s (v : String)
  | i (v : Int)
  | f (units : Int) (tenths : Nat)
deriving DecidableEq, Repr

/-- An attribute value: a scalar, or (shapes the schema admits but the
notebook data never uses) an array of scalars or a nested mapping. -/
inductive Val where
  | sc (v : Scalar)
  | arr (vs : List Scalar)
  | obj (kvs : List (String × Scalar))
deriving DecidableEq, Repr

/-- Whether an attribute value is a scalar (string or number), as
opposed to a nested array or mapping. -/
def Val.isScalar : Val → Bool
  | .sc _ => true
  | .arr _ => false
  | .obj _ => false

/-- A retrievable record as in `langchain_core.documents.Document`:
opaque text content plus a mapping of attribute name to value. -/
structure Document where
  page_content : String
  metadata : List (String × Val)
deriving DecidableEq, Repr

/-- Shorthand for a string-valued metadata entry. -/
def sv (k v : String) : String × Val := (k, Val.sc (Scalar.s v))

/-- Shorthand for an integer-valued metadata entry. -/
def iv (k : String) (v : Int) : String × Val := (k, Val.sc (Scalar.i v))

/-- Shorthand for a one-decimal-float-valued metadata entry. -/
def fv (k : String) (a : Int) (b : Nat) : String × Val := (k, Val.sc (Scalar.f a b))

/-- First ingested document (notebook cell `docs = [...]`). -/
def doc1 : Document :=
  { page_content := "A bunch of scientists bring back dinosaurs and mayhem breaks loose"
    metadata := [iv "year" 1993, fv "rating" 7 7, sv "genre" "science fiction"] }

/-- Second ingested document. -/
def doc2 : Document :=
  { page_content := "Leo DiCaprio gets lost in a dream within a dream within a dream within a ..."
    metadata := [iv "year" 2010, sv "director" "Christopher Nolan", fv "rating" 8 2] }

/-- Third ingested document. -/
def doc3 : Document :=
  { page_content := "A psychologist / detective gets lost in a series of dreams within dreams within dreams and Inception reused the idea"
    metadata := [iv "year" 2006, sv "director" "Satoshi Kon", fv "rating" 8 6] }

/-- Fourth ingested document. -/
def doc4 : Document :=
  { page_content := "A bunch of normal-sized women are supremely wholesome and some men pine after them"
    metadata := [iv "year" 2019, sv "director" "Greta Gerwig", fv "rating" 8 3] }

/-- Fifth ingested document. -/
def doc5 : Document :=
  { page_content := "Toys come alive and have a blast doing so"
    metadata := [iv "year" 1995, sv "genre" "animated"] }

/-- Sixth ingested document. -/
def doc6 : Document :=
  { page_content := "Three men walk into the Zone, three men walk out of the Zone"
    metadata := [iv "year" 1979, fv "rating" 9 9, sv "director" "Andrei Tarkovsky",
                 sv "genre" "science fiction"] }

/-- The list `docs` ingested by the loop
`for doc in docs: vectara.add_texts([doc.page_content], doc_metadata=doc.metadata)`. -/
def docs : List Document := [doc1, doc2, doc3, doc4, doc5, doc6]

/-- String rendering of an attribute value, as the recorded notebook
outputs show Vectara returning it (numbers come back as their decimal
strings). -/
def renderVal : Val → String
  | .sc (Scalar.s v) => v
  | .sc (Scalar.i v) => toString v
  | .sc (Scalar.f a b) => toString a ++ "." ++ toString b
  | .arr _ => ""
  | .obj _ => ""

/-- How a stored document comes back from a Vectara query, read off the
recorded `retriever.invoke` outputs in the notebook: the store prepends
the administrative attributes `lang`, `offset` and `len`, keeps every
ingested attribute name in order with its value rendered as a string,
and appends `source: langchain`. -/
def vectaraRender (d : Document) : Document :=
  { page_content := d.page_content
    metadata :=
      [sv "lang" "eng", sv "offset" "0", sv "len" (toString d.page_content.length)]
        ++ d.metadata.map (fun kv => (kv.1, Val.sc (Scalar.s (renderVal kv.2))))
        ++ [sv "source" "langchain"] }

/-- Recorded output of `retriever.invoke("What are movies about scientists")`
(notebook cell with the full six-document result), transcribed literally. -/
def invokeScientists : List Document :=
  [ { page_content := "A bunch of scientists bring back dinosaurs and mayhem breaks loose"
      metadata := [sv "lang" "eng", sv "offset" "0", sv "len" "66", sv "year" "1993",
                   sv "rating" "7.7", sv "genre" "science fiction", sv "source" "langchain"] },
    { page_content := "A psychologist / detective gets lost in a series of dreams within dreams within dreams and Inception reused the idea"
      metadata := [sv "lang" "eng", sv "offset" "0", sv "len" "116", sv "year" "2006",
                   sv "director" "Satoshi Kon", sv "rating" "8.6", sv "source" "langchain"] },
    { page_content := "Toys come alive and have a blast doing so"
      metadata := [sv "lang" "eng", sv "offset" "0", sv "len" "41", sv "year" "1995",
                   sv "genre" "animated", sv "source" "langchain"] },
    { page_content := "Three men walk into the Zone, three men walk out of the Zone"
      metadata := [sv "lang" "eng", sv "offset" "0", sv "len" "60", sv "year" "1979",
                   sv "rating" "9.9", sv "director" "Andrei Tarkovsky",
                   sv "genre" "science fiction", sv "source" "langchain"] },
    { page_content := "A bunch of normal-sized women are supremely wholesome and some men pine after them"
      metadata := [sv "lang" "eng", sv "offset" "0", sv "len" "82", sv "year" "2019",
                   sv "director" "Greta Gerwig", sv "rating" "8.3", sv "source" "langchain"] },
    { page_content := "Leo DiCaprio gets lost in a dream within a dream within a dream within a ..."
      metadata := [sv "lang" "eng", sv "offset" "0", sv "len" "76", sv "year" "2010",
                   sv "director" "Christopher Nolan", sv "rating" "8.2", sv "source" "langchain"] } ]

/-- Recorded output of
`retriever.invoke("what are two movies with a rating above 8.5")`
with `enable_limit=True`, transcribed literally. -/
def invokeLimit : List Document :=
  [ { page_content := "A psychologist / detective gets lost in a series of dreams within dreams within dreams and Inception reused the idea"
      metadata := [sv "lang" "eng", sv "offset" "0", sv "len" "116", sv "year" "2006",
                   sv "director" "Satoshi Kon", sv "rating" "8.6", sv "source" "langchain"] },
    { page_content := "Three men walk into the Zone, three men walk out of the Zone"
      metadata := [sv "lang" "eng", sv "offset" "0", sv "len" "60", sv "year" "1979",
                   sv "rating" "9.9", sv "director" "Andrei Tarkovsky",
                   sv "genre" "science fiction", sv "source" "langchain"] } ]

/-- C2 counterexample: the claim that the query method returns a
document with its ingested attribute mapping unchanged fails on the
first demonstrated document: no record of the recorded
`retriever.invoke` output carries `doc1`'s content together with
`doc1`'s ingested metadata (the store returns `year` as the string
`"1993"` rather than the number `1993`, and adds `lang`, `offset`,
`len` and `source`). -/
theorem c2_metadata_not_unchanged :
    doc1 ∈ docs ∧
    ¬ ∃ r ∈ invokeScientists,
        r.page_content = doc1.page_content ∧ r.metadata = doc1.metadata := by
  decide

/-- C2 amended: every demonstrated ingested document comes back from
the query with its attribute names preserved in order and each value
rendered as its decimal string, wrapped between store-added
administrative attributes (`lang`, `offset`, `len` before; `source`
after); concretely the recorded full six-document result is exactly the
ingested documents, reordered by relevance, with this rendering
applied. -/
theorem c2_metadata_rendered :
    invokeScientists = [doc1, doc3, doc5, doc6, doc4, doc2].map vectaraRender ∧
    (docs.all fun d => decide (vectaraRender d ∈ invokeScientists)) = true := by
  constructor
  · rfl
  · decide

/-- Modelled from the spec: the self-query pattern ("a
language-understanding step translates a natural-language query into a
structured filter plus search string before invoking a vector-store
search") together with the retriever's `enable_limit` option. The
vector-store side of the search is not in this repository; it is
modelled as filtering the stored corpus by the structured filter and,
when a limit `k` was extracted from the query, keeping at most `k`
hits. -/
def vectaraSearch (corpus : List Document) (flt : Document → Bool)
    (lim : Option Nat) : List Document :=
  match lim with
  | some k => (corpus.filter flt).take k
  | none => corpus.filter flt

/-- Numeric value of an attribute in tenths, when it is numeric. -/
def Val.tenths : Val → Option Int
  | .sc (Scalar.i n) => some (10 * n)
  | .sc (Scalar.f a b) => some (10 * a + (b : Int))
  | _ => none

/-- The structured filter `rating > t/10`, as produced by the query
constructor for queries like "rated higher than 8.5" (`t = 85`). -/
def ratingAbove (t : Int) (d : Document) : Bool :=
  match List.lookup "rating" d.metadata with
  | some v =>
    match v.tenths with
    | some x => decide (t < x)
    | none => false
  | none => false

theorem mem_vectaraSearch {corpus : List Document} {flt : Document → Bool}
    {lim : Option Nat} {d : Document} (h : d ∈ vectaraSearch corpus flt lim) :
    d ∈ corpus := by
  cases lim with
  | none => exact (List.mem_filter.mp h).1
  | some k =>
    exact (List.mem_filter.mp (List.mem_of_mem_take h)).1

theorem vectaraRender_all_scalar (d : Document) :
    ((vectaraRender d).metadata.all fun kv => kv.2.isScalar) = true := by
  simp [vectaraRender, List.all_append, List.all_map, sv, Function.comp,
    Val.isScalar]

/-- C4: every record returned by the modelled query method is opaque
text content plus a flat mapping of attribute names to scalar values
(no nested shapes), and is one of the stored documents as rendered by
the store — nothing else is returned. -/
theorem c4_query_returns_records (flt : Document → Bool) (lim : Option Nat)
    (r : Document) (h : r ∈ (vectaraSearch docs flt lim).map vectaraRender) :
    (r.metadata.all fun kv => kv.2.isScalar) = true ∧
    ∃ d ∈ docs, r = vectaraRender d := by
  rcases List.mem_map.mp h with ⟨d, hd, rfl⟩
  exact ⟨vectaraRender_all_scalar d, d, mem_vectaraSearch hd, rfl⟩

/-- C4 witness: the theorem applied to the first rendered document of
an unfiltered, unlimited query. -/
theorem c4_query_returns_records_witness :
    ((vectaraRender doc1).metadata.all fun kv => kv.2.isScalar) = true ∧
    ∃ d ∈ docs, vectaraRender doc1 = vectaraRender d :=
  c4_query_returns_records (fun _ => true) none (vectaraRender doc1) (by decide)

/-- C10: with a limit extracted from the query (`enable_limit=True`),
the modelled query returns at most that many documents; and for the
demonstrated query asking for two movies rated above 8.5, the model
over the ingested corpus yields exactly the two recorded documents. -/
theorem c10_limit_respected :
    (∀ (corpus : List Document) (flt : Document → Bool) (k : Nat),
      (vectaraSearch corpus flt (some k)).length ≤ k) ∧
    (vectaraSearch docs (ratingAbove 85) (some 2)).map vectaraRender = invokeLimit ∧
    invokeLimit.length = 2 := by
  refine ⟨fun corpus flt k => ?_, by decide, rfl⟩
  simp [vectaraSearch, List.length_take]

/-! ## Part II: session store and the history-wrapped runnable -/

/-- Message role, as tagged by `HumanMessage` / model responses. -/
inductive Role where
  | human
  | ai
deriving DecidableEq, Repr

/-- A role-tagged chat message. -/
structure Msg where
  role : Role
  content : String
deriving DecidableEq, Repr

/-- A session identifier as the notebook uses them: a plain
`session_id` string, or a `(user_id, conversation_id)` pair when
`history_factory_config` declares those two fields. -/
inductive SessionKey where
  | sid (s : String)
  | uc (u c : String)
deriving DecidableEq, Repr

/-- The `configurable` part of a per-call configuration map, carrying
the identifier fields the notebook passes
(`\x7b"configurable": \x7b"session_id": ...\x7d\x7d` or user and
conversation ids). -/
structure Config where
  session_id : Option String
  user_id : Option String
  conversation_id : Option String
deriving DecidableEq, Repr

/-- Which identifier fields the wrapper reads: the default single
`session_id`, or the two-field form declared by the
`history_factory_config` in the notebook's second example. -/
inductive FactoryMode where
  | sessionOnly
  | userConversation
deriving DecidableEq, Repr

/-- Modelled from the spec: the wrapper derives the history key from
the per-call configuration map — the `session_id` value by default, or
the `user_id` and `conversation_id` values under the notebook's
`history_factory_config` (each `ConfigurableFieldSpec` declares
`default=""`). -/
def sessionKey : FactoryMode → Config → SessionKey
  | .sessionOnly, c => .sid (c.session_id.getD "")
  | .userConversation, c => .uc (c.user_id.getD "") (c.conversation_id.getD "")

/-- The mutable Python world of the notebook: the dictionary
`store = \x7b\x7d` maps a session key to the identity (heap index) of a
`ChatMessageHistory` object, and `recs` holds each history object's
message list by identity. Keeping identities explicit lets "the same
stored object" and "distinct records" be stated faithfully. -/
structure HState where
  store : List (SessionKey × Nat)
  recs : List (List Msg)
deriving DecidableEq, Repr

/-- The empty initial world: `store = \x7b\x7d` and no history objects. -/
def HState.empty : HState := { store := [], recs := [] }

/-- Dictionary lookup, `store[k]` when `k in store`. -/
def lookupKey : List (SessionKey × Nat) → SessionKey → Option Nat
  | [], _ => none
  | p :: ps, k => if p.1 = k then some p.2 else lookupKey ps k

/-- Read a history object's messages by identity (a dangling identity
reads as empty; well-formed states have none). -/
def getRec : List (List Msg) → Nat → List Msg
  | [], _ => []
  | h :: _, 0 => h
  | _ :: t, n + 1 => getRec t n

/-- Overwrite a history object's messages in place by identity. -/
def setRec : List (List Msg) → Nat → List Msg → List (List Msg)
  | [], _, _ => []
  | _ :: t, 0, v => v :: t
  | h :: t, n + 1, v => h :: setRec t n v

/-- The notebook's accessor
`def get_session_history(session_id): if session_id not in store:
store[session_id] = ChatMessageHistory(); return store[session_id]`
(and its two-parameter `(user_id, conversation_id)` variant): on a
missing key it allocates a fresh empty history object and stores its
identity under the key; it returns the stored object's identity. -/
def get_session_history (st : HState) (k : SessionKey) : HState × Nat :=
  match lookupKey st.store k with
  | some rid => (st, rid)
  | none =>
    ({ store := st.store ++ [(k, st.recs.length)], recs := st.recs ++ [[]] },
     st.recs.length)

/-- Modelled from the spec: one invocation of the history-wrapped
runnable ("user turn → external session-history lookup/append →
external chat-completion call → response"): derive the key from the
configuration, fetch (creating if needed) the history record, call the
chat model `m` on the prior messages and the new user turn, then append
the user turn and the response to that record. `m` abstracts the
external chat-completion service. -/
def invoke (m : List Msg → String → String) (mode : FactoryMode)
    (st : HState) (cfg : Config) (inp : String) : HState × String :=
  let gr := get_session_history st (sessionKey mode cfg)
  let hist := getRec gr.1.recs gr.2
  let resp := m hist inp
  ({ gr.1 with
      recs := setRec gr.1.recs gr.2
        (hist ++ [{ role := Role.human, content := inp },
                  { role := Role.ai, content := resp }]) },
   resp)

/-- The messages an invocation under configuration `cfg` reads as its
prior history (empty when the key is new). -/
def invokeReadHist (mode : FactoryMode) (st : HState) (cfg : Config) :
    List Msg :=
  let gr := get_session_history st (sessionKey mode cfg)
  getRec gr.1.recs gr.2

/-- The identity of the history record an invocation uses. It is
computed from the configuration alone; the chat model and the input
payload play no part, mirroring that the wrapper passes only the
configured identifier fields to the history factory. -/
def invokeUsedRec (_m : List Msg → String → String) (mode : FactoryMode)
    (st : HState) (cfg : Config) (_inp : String) : Nat :=
  (get_session_history st (sessionKey mode cfg)).2

/-- The messages currently stored under a key (empty when absent). -/
def readKey (st : HState) (k : SessionKey) : List Msg :=
  match lookupKey st.store k with
  | some rid => getRec st.recs rid
  | none => []

/-- Well-formedness of a world: distinct keys map to distinct history
objects, keys appear once, and every stored identity is live. It holds
for the empty world and is preserved by the demonstrated operations. -/
def WF (st : HState) : Prop :=
  st.store.Pairwise (fun p q => p.1 ≠ q.1 ∧ p.2 ≠ q.2) ∧
  ∀ p ∈ st.store, p.2 < st.recs.length

theorem lookupKey_append (l1 l2 : List (SessionKey × Nat)) (k : SessionKey) :
    lookupKey (l1 ++ l2) k =
      match lookupKey l1 k with
      | some v => some v
      | none => lookupKey l2 k := by
  induction l1 with
  | nil => simp [lookupKey]
  | cons p ps ih =>
    by_cases h : p.1 = k <;> simp [lookupKey, h, ih]

theorem lookupKey_append_of_some {l1 : List (SessionKey × Nat)}
    {k : SessionKey} {r : Nat} (l2 : List (SessionKey × Nat))
    (h : lookupKey l1 k = some r) : lookupKey (l1 ++ l2) k = some r := by
  rw [lookupKey_append, h]

theorem lookupKey_append_single_ne {l : List (SessionKey × Nat)}
    {k k' : SessionKey} (r : Nat) (h : k' ≠ k) :
    lookupKey (l ++ [(k', r)]) k = lookupKey l k := by
  rw [lookupKey_append]
  cases hl : lookupKey l k <;> simp [lookupKey, h]

theorem lookupKey_append_self {l : List (SessionKey × Nat)}
    {k : SessionKey} (r : Nat) (h : lookupKey l k = none) :
    lookupKey (l ++ [(k, r)]) k = some r := by
  rw [lookupKey_append, h]
  simp [lookupKey]

theorem lookupKey_mem {l : List (SessionKey × Nat)} {k : SessionKey}
    {r : Nat} (h : lookupKey l k = some r) : (k, r) ∈ l := by
  induction l with
  | nil => simp [lookupKey] at h
  | cons p ps ih =>
    obtain ⟨pk, pr⟩ := p
    by_cases hp : pk = k
    · simp [lookupKey, hp] at h
      rw [← hp, ← h]
      exact List.mem_cons_self _ _
    · simp only [lookupKey] at h
      rw [if_neg hp] at h
      exact List.mem_cons_of_mem _ (ih h)

theorem lookupKey_none_key_ne {l : List (SessionKey × Nat)} {k : SessionKey}
    (h : lookupKey l k = none) : ∀ p ∈ l, p.1 ≠ k := by
  induction l with
  | nil => simp
  | cons p ps ih =>
    by_cases hp : p.1 = k
    · simp [lookupKey, hp] at h
    · simp only [lookupKey] at h
      rw [if_neg hp] at h
      intro q hq
      rcases List.mem_cons.mp hq with hq | hq
      · rw [hq]; exact hp
      · exact ih h q hq

theorem pairwise_distinct_rids {l : List (SessionKey × Nat)}
    (hpw : l.Pairwise (fun p q => p.1 ≠ q.1 ∧ p.2 ≠ q.2))
    {k1 k2 : SessionKey} {r1 r2 : Nat}
    (h1 : (k1, r1) ∈ l) (h2 : (k2, r2) ∈ l) (hne : k1 ≠ k2) : r1 ≠ r2 := by
  induction l with
  | nil => simp at h1
  | cons p ps ih =>
    rcases List.pairwise_cons.mp hpw with ⟨hp, hps⟩
    rcases List.mem_cons.mp h1 with h1 | h1 <;>
      rcases List.mem_cons.mp h2 with h2 | h2
    · rw [← h1] at h2
      exact absurd (congrArg Prod.fst h2).symm hne
    · have := hp _ h2
      rw [← h1] at this
      exact this.2
    · have := hp _ h1
      rw [← h2] at this
      exact fun he => this.2 he.symm
    · exact ih hps h1 h2

theorem length_setRec (l : List (List Msg)) (i : Nat) (v : List Msg) :
    (setRec l i v).length = l.length := by
  induction l generalizing i with
  | nil => simp [setRec]
  | cons h t ih =>
    cases i with
    | zero => simp [setRec]
    | succ n => simp [setRec, ih]

theorem getRec_setRec_self {l : List (List Msg)} {i : Nat}
    (v : List Msg) (h : i < l.length) : getRec (setRec l i v) i = v := by
  induction l generalizing i with
  | nil => simp at h
  | cons hd t ih =>
    cases i with
    | zero => simp [setRec, getRec]
    | succ n =>
      simp [setRec, getRec]
      exact ih (Nat.lt_of_succ_lt_succ h)

theorem getRec_setRec_ne (l : List (List Msg)) {i j : Nat}
    (v : List Msg) (h : i ≠ j) : getRec (setRec l i v) j = getRec l j := by
  induction l generalizing i j with
  | nil => simp [setRec]
  | cons hd t ih =>
    cases i with
    | zero =>
      cases j with
      | zero => exact absurd rfl h
      | succ m => simp [setRec, getRec]
    | succ n =>
      cases j with
      | zero => simp [setRec, getRec]
      | succ m =>
        simp [setRec, getRec]
        exact ih (fun he => h (congrArg Nat.succ he))

theorem getRec_append_lt {l : List (List Msg)} (l2 : List (List Msg))
    {i : Nat} (h : i < l.length) : getRec (l ++ l2) i = getRec l i := by
  induction l generalizing i with
  | nil => simp at h
  | cons hd t ih =>
    cases i with
    | zero => simp [getRec]
    | succ n =>
      simp [getRec]
      exact ih (Nat.lt_of_succ_lt_succ h)

theorem getRec_append_len (l : List (List Msg)) (v : List Msg) :
    getRec (l ++ [v]) l.length = v := by
  induction l with
  | nil => simp [getRec]
  | cons hd t ih => simpa [getRec] using ih

theorem WF_empty : WF HState.empty := by
  constructor <;> simp [HState.empty]

/-- C8: `get_session_history` is an idempotent lazily-initialising
accessor: when the identifier is absent it appends a fresh empty
history object under that key and returns its identity; and calling it
again with the same identifier returns the identical stored object and
leaves the world unchanged. -/
theorem c8_get_session_history_accessor (st : HState) (k : SessionKey) :
    (lookupKey st.store k = none →
      (get_session_history st k).1.store = st.store ++ [(k, st.recs.length)] ∧
      (get_session_history st k).2 = st.recs.length ∧
      getRec (get_session_history st k).1.recs (get_session_history st k).2 = []) ∧
    get_session_history (get_session_history st k).1 k = get_session_history st k := by
  cases h : lookupKey st.store k with
  | some rid =>
    refine ⟨fun hn => Option.noConfusion hn, ?_⟩
    simp [get_session_history, h]
  | none =>
    refine ⟨fun _ => ⟨by simp [get_session_history, h], by simp [get_session_history, h], ?_⟩, ?_⟩
    · simp [get_session_history, h, getRec_append_len]
    · have hl : lookupKey (get_session_history st k).1.store k = some st.recs.length := by
        simp [get_session_history, h]
        exact lookupKey_append_self _ h
      simp [get_session_history, h] at hl ⊢
      simp [hl]

/-- C8 witness: the accessor applied twice to a fresh key in the empty
world. -/
theorem c8_get_session_history_accessor_witness :
    lookupKey HState.empty.store (SessionKey.sid "abc123") = none ∧
    ((get_session_history HState.empty (SessionKey.sid "abc123")).1.store =
        HState.empty.store ++ [(SessionKey.sid "abc123", HState.empty.recs.length)] ∧
      (get_session_history HState.empty (SessionKey.sid "abc123")).2 =
        HState.empty.recs.length ∧
      getRec (get_session_history HState.empty (SessionKey.sid "abc123")).1.recs
        (get_session_history HState.empty (SessionKey.sid "abc123")).2 = []) ∧
    get_session_history
        (get_session_history HState.empty (SessionKey.sid "abc123")).1
        (SessionKey.sid "abc123") =
      get_session_history HState.empty (SessionKey.sid "abc123") :=
  ⟨by decide,
   (c8_get_session_history_accessor HState.empty (SessionKey.sid "abc123")).1 (by decide),
   (c8_get_session_history_accessor HState.empty (SessionKey.sid "abc123")).2⟩

theorem lookupKey_get_preserved (st : HState) (k2 : SessionKey)
    {k : SessionKey} {rid : Nat} (h : lookupKey st.store k = some rid) :
    lookupKey (get_session_history st k2).1.store k = some rid := by
  cases h2 : lookupKey st.store k2 with
  | some r => simpa [get_session_history, h2] using h
  | none =>
    simp [get_session_history, h2]
    exact lookupKey_append_of_some _ h

/-- C9: the in-memory history store only grows: neither the accessor
nor an invocation of the history-wrapped runnable deletes or replaces a
store entry, so a key that maps to a history record keeps mapping to
that same record across every demonstrated operation. -/
theorem c9_store_only_grows (m : List Msg → String → String)
    (mode : FactoryMode) (st : HState) (cfg : Config) (inp : String)
    (k k2 : SessionKey) (rid : Nat) (h : lookupKey st.store k = some rid) :
    lookupKey (get_session_history st k2).1.store k = some rid ∧
    lookupKey (invoke m mode st cfg inp).1.store k = some rid := by
  refine ⟨lookupKey_get_preserved st k2 h, ?_⟩
  have hst : (invoke m mode st cfg inp).1.store =
      (get_session_history st (sessionKey mode cfg)).1.store := rfl
  rw [hst]
  exact lookupKey_get_preserved st _ h

/-- C9 witness: a world holding one record under `abc123`, after an
accessor call for `xyz` and an invocation configured for `def234`. -/
theorem c9_store_only_grows_witness :
    lookupKey
        ({ store := [(SessionKey.sid "abc123", 0)], recs := [[]] } : HState).store
        (SessionKey.sid "abc123") = some 0 ∧
    lookupKey
        (get_session_history
          ({ store := [(SessionKey.sid "abc123", 0)], recs := [[]] } : HState)
          (SessionKey.sid "xyz")).1.store (SessionKey.sid "abc123") = some 0 ∧
    lookupKey
        (invoke (fun _ s => s) FactoryMode.sessionOnly
          ({ store := [(SessionKey.sid "abc123", 0)], recs := [[]] } : HState)
          { session_id := some "def234", user_id := none, conversation_id := none }
          "What does cosine mean?").1.store (SessionKey.sid "abc123") = some 0 :=
  ⟨by decide,
   (c9_store_only_grows (fun _ s => s) FactoryMode.sessionOnly
      { store := [(SessionKey.sid "abc123", 0)], recs := [[]] }
      { session_id := some "def234", user_id := none, conversation_id := none }
      "What does cosine mean?" (SessionKey.sid "abc123") (SessionKey.sid "xyz") 0
      (by decide)).1,
   (c9_store_only_grows (fun _ s => s) FactoryMode.sessionOnly
      { store := [(SessionKey.sid "abc123", 0)], recs := [[]] }
      { session_id := some "def234", user_id := none, conversation_id := none }
      "What does cosine mean?" (SessionKey.sid "abc123") (SessionKey.sid "xyz") 0
      (by decide)).2⟩

/-- C5: the history record an invocation uses is determined solely by
the identifier fields of the per-call configuration map (`session_id`
by default, `user_id` and `conversation_id` under the notebook's
`history_factory_config`), never by the input payload or the model: two
invocations whose configurations agree on those fields use the same
record, whatever their inputs. -/
theorem c5_record_from_config_only (m1 m2 : List Msg → String → String)
    (mode : FactoryMode) (st : HState) (cfg1 cfg2 : Config) (in1 in2 : String)
    (h : sessionKey mode cfg1 = sessionKey mode cfg2) :
    invokeUsedRec m1 mode st cfg1 in1 = invokeUsedRec m2 mode st cfg2 in2 := by
  simp [invokeUsedRec, h]

/-- C5 witness: two invocations sharing `session_id = "abc123"` but
with different inputs, models, and non-identifier configuration fields
use the same record. -/
theorem c5_record_from_config_only_witness :
    invokeUsedRec (fun _ s => s) FactoryMode.sessionOnly HState.empty
        { session_id := some "abc123", user_id := none, conversation_id := none }
        "What does cosine mean?" =
      invokeUsedRec (fun _ _ => "ok") FactoryMode.sessionOnly HState.empty
        { session_id := some "abc123", user_id := some "123",
          conversation_id := some "1" }
        "What?" :=
  c5_record_from_config_only (fun _ s => s) (fun _ _ => "ok")
    FactoryMode.sessionOnly HState.empty
    { session_id := some "abc123", user_id := none, conversation_id := none }
    { session_id := some "abc123", user_id := some "123", conversation_id := some "1" }
    "What does cosine mean?" "What?" (by decide)

/-- C3: every invocation of the history-wrapped runnable first looks up
the history record for the configured identifier, supplies those prior
messages with the new user turn to the chat-completion call, and
afterwards appends the user turn and the produced response to that same
record; hence a second invocation with the same identifier reads the
first exchange in its history. -/
theorem c3_invoke_lookup_call_append (m : List Msg → String → String)
    (mode : FactoryMode) (st : HState) (cfg : Config) (inp : String)
    (hwf : WF st) :
    (invoke m mode st cfg inp).2 = m (invokeReadHist mode st cfg) inp ∧
    readKey (invoke m mode st cfg inp).1 (sessionKey mode cfg) =
      invokeReadHist mode st cfg ++
        [{ role := Role.human, content := inp },
         { role := Role.ai, content := (invoke m mode st cfg inp).2 }] ∧
    invokeReadHist mode (invoke m mode st cfg inp).1 cfg =
      invokeReadHist mode st cfg ++
        [{ role := Role.human, content := inp },
         { role := Role.ai, content := (invoke m mode st cfg inp).2 }] := by
  refine ⟨rfl, ?_⟩
  cases h : lookupKey st.store (sessionKey mode cfg) with
  | some rid =>
    have hlt : rid < st.recs.length := hwf.2 _ (lookupKey_mem h)
    have hread : invokeReadHist mode st cfg = getRec st.recs rid := by
      simp [invokeReadHist, get_session_history, h]
    have hresp : (invoke m mode st cfg inp).2 = m (getRec st.recs rid) inp := by
      simp [invoke, get_session_history, h]
    have hst : (invoke m mode st cfg inp).1.store = st.store := by
      simp [invoke, get_session_history, h]
    have hrecs : (invoke m mode st cfg inp).1.recs =
        setRec st.recs rid
          (getRec st.recs rid ++
            [{ role := Role.human, content := inp },
             { role := Role.ai, content := m (getRec st.recs rid) inp }]) := by
      simp [invoke, get_session_history, h]
    constructor
    · simp [readKey, hst, h, hrecs, hread, hresp, getRec_setRec_self _ hlt]
    · simp [invokeReadHist, get_session_history, hst, h, hrecs, hread, hresp,
        getRec_setRec_self _ hlt]
  | none =>
    have hread : invokeReadHist mode st cfg = [] := by
      simp [invokeReadHist, get_session_history, h, getRec_append_len]
    have hresp : (invoke m mode st cfg inp).2 = m [] inp := by
      simp [invoke, get_session_history, h, getRec_append_len]
    have hst : (invoke m mode st cfg inp).1.store =
        st.store ++ [(sessionKey mode cfg, st.recs.length)] := by
      simp [invoke, get_session_history, h]
    have hrecs : (invoke m mode st cfg inp).1.recs =
        setRec (st.recs ++ [[]]) st.recs.length
          ([{ role := Role.human, content := inp },
            { role := Role.ai, content := m [] inp }]) := by
      simp [invoke, get_session_history, h, getRec_append_len]
    have hlook : lookupKey (invoke m mode st cfg inp).1.store
        (sessionKey mode cfg) = some st.recs.length := by
      rw [hst]
      exact lookupKey_append_self _ h
    have hlt : st.recs.length < (st.recs ++ [[]]).length := by simp
    constructor
    · simp [readKey, hlook, hrecs, hread, hresp, getRec_setRec_self _ hlt]
    · simp [invokeReadHist, get_session_history, h, hlook, hrecs, hresp,
        getRec_setRec_self _ hlt, getRec_append_len]

/-- C3 witness: the flow instantiated with an echoing chat model, the
empty world and the notebook's first demonstrated call. -/
theorem c3_invoke_lookup_call_append_witness :
    (invoke (fun _ s => s) FactoryMode.sessionOnly HState.empty
        { session_id := some "abc123", user_id := none, conversation_id := none }
        "What does cosine mean?").2 =
      (fun (_ : List Msg) (s : String) => s)
        (invokeReadHist FactoryMode.sessionOnly HState.empty
          { session_id := some "abc123", user_id := none, conversation_id := none })
        "What does cosine mean?" ∧
    readKey
        (invoke (fun _ s => s) FactoryMode.sessionOnly HState.empty
          { session_id := some "abc123", user_id := none, conversation_id := none }
          "What does cosine mean?").1
        (sessionKey FactoryMode.sessionOnly
          { session_id := some "abc123", user_id := none, conversation_id := none }) =
      invokeReadHist FactoryMode.sessionOnly HState.empty
          { session_id := some "abc123", user_id := none, conversation_id := none } ++
        [{ role := Role.human, content := "What does cosine mean?" },
         { role := Role.ai, content :=
            (invoke (fun _ s => s) FactoryMode.sessionOnly HState.empty
              { session_id := some "abc123", user_id := none, conversation_id := none }
              "What does cosine mean?").2 }] ∧
    invokeReadHist FactoryMode.sessionOnly
        (invoke (fun _ s => s) FactoryMode.sessionOnly HState.empty
          { session_id := some "abc123", user_id := none, conversation_id := none }
          "What does cosine mean?").1
        { session_id := some "abc123", user_id := none, conversation_id := none } =
      invokeReadHist FactoryMode.sessionOnly HState.empty
          { session_id := some "abc123", user_id := none, conversation_id := none } ++
        [{ role := Role.human, content := "What does cosine mean?" },
         { role := Role.ai, content :=
            (invoke (fun _ s => s) FactoryMode.sessionOnly HState.empty
              { session_id := some "abc123", user_id := none, conversation_id := none }
              "What does cosine mean?").2 }] :=
  c3_invoke_lookup_call_append (fun _ s => s) FactoryMode.sessionOnly HState.empty
    { session_id := some "abc123", user_id := none, conversation_id := none }
    "What does cosine mean?" WF_empty

theorem invokeReadHist_none {st : HState} {mode : FactoryMode} {cfg : Config}
    (h : lookupKey st.store (sessionKey mode cfg) = none) :
    invokeReadHist mode st cfg = [] := by
  simp [invokeReadHist, get_session_history, h, getRec_append_len]

/-- C1: conversation histories are isolated by identifier: whether keys
are `session_id` strings or `(user_id, conversation_id)` pairs, an
invocation under one identifier uses a history record distinct from the
one any invocation under a different identifier uses, and the history a
later invocation under the other identifier reads is exactly what it
would have read had the first invocation never happened — a turn
recorded under one identifier is never visible under another. -/
theorem c1_history_isolation (m : List Msg → String → String)
    (mode : FactoryMode) (st : HState) (cfg1 cfg2 : Config) (in1 in2 : String)
    (hwf : WF st) (hne : sessionKey mode cfg1 ≠ sessionKey mode cfg2) :
    invokeUsedRec m mode (invoke m mode st cfg1 in1).1 cfg2 in2 ≠
      invokeUsedRec m mode st cfg1 in1 ∧
    invokeReadHist mode (invoke m mode st cfg1 in1).1 cfg2 =
      invokeReadHist mode st cfg2 := by
  cases h1 : lookupKey st.store (sessionKey mode cfg1) with
  | some r1 =>
    have hr1 : r1 < st.recs.length := hwf.2 _ (lookupKey_mem h1)
    have hused1 : invokeUsedRec m mode st cfg1 in1 = r1 := by
      simp [invokeUsedRec, get_session_history, h1]
    have hst : (invoke m mode st cfg1 in1).1.store = st.store := by
      simp [invoke, get_session_history, h1]
    have hrecs : (invoke m mode st cfg1 in1).1.recs =
        setRec st.recs r1
          (getRec st.recs r1 ++
            [{ role := Role.human, content := in1 },
             { role := Role.ai, content := m (getRec st.recs r1) in1 }]) := by
      simp [invoke, get_session_history, h1]
    have hlen : (invoke m mode st cfg1 in1).1.recs.length = st.recs.length := by
      rw [hrecs, length_setRec]
    cases h2 : lookupKey st.store (sessionKey mode cfg2) with
    | some r2 =>
      have hrne : r2 ≠ r1 :=
        pairwise_distinct_rids hwf.1 (lookupKey_mem h2) (lookupKey_mem h1)
          (fun he => hne he.symm)
      constructor
      · rw [hused1]
        have h2' : invokeUsedRec m mode (invoke m mode st cfg1 in1).1 cfg2 in2 = r2 := by
          simp [invokeUsedRec, get_session_history, hst, h2]
        rw [h2']
        exact hrne
      · simp [invokeReadHist, get_session_history, hst, h2, hrecs,
          getRec_setRec_ne _ _ (fun he => hrne he.symm)]
    | none =>
      constructor
      · rw [hused1]
        have h2' : invokeUsedRec m mode (invoke m mode st cfg1 in1).1 cfg2 in2 =
            (invoke m mode st cfg1 in1).1.recs.length := by
          simp [invokeUsedRec, get_session_history, hst, h2]
        rw [h2', hlen]
        exact (Nat.ne_of_lt hr1).symm
      · rw [invokeReadHist_none (by rw [hst]; exact h2), invokeReadHist_none h2]
  | none =>
    have hused1 : invokeUsedRec m mode st cfg1 in1 = st.recs.length := by
      simp [invokeUsedRec, get_session_history, h1]
    have hst : (invoke m mode st cfg1 in1).1.store =
        st.store ++ [(sessionKey mode cfg1, st.recs.length)] := by
      simp [invoke, get_session_history, h1]
    have hrecs : (invoke m mode st cfg1 in1).1.recs =
        setRec (st.recs ++ [[]]) st.recs.length
          ([{ role := Role.human, content := in1 },
            { role := Role.ai, content := m [] in1 }]) := by
      simp [invoke, get_session_history, h1, getRec_append_len]
    have hlen : (invoke m mode st cfg1 in1).1.recs.length = st.recs.length + 1 := by
      rw [hrecs, length_setRec]
      simp
    have hlook2 : lookupKey (invoke m mode st cfg1 in1).1.store
        (sessionKey mode cfg2) = lookupKey st.store (sessionKey mode cfg2) := by
      rw [hst]
      exact lookupKey_append_single_ne _ hne
    cases h2 : lookupKey st.store (sessionKey mode cfg2) with
    | some r2 =>
      have hr2 : r2 < st.recs.length := hwf.2 _ (lookupKey_mem h2)
      constructor
      · rw [hused1]
        have h2' : invokeUsedRec m mode (invoke m mode st cfg1 in1).1 cfg2 in2 = r2 := by
          simp [invokeUsedRec, get_session_history, hlook2, h2]
        rw [h2']
        exact Nat.ne_of_lt hr2
      · have hne2 : st.recs.length ≠ r2 := (Nat.ne_of_lt hr2).symm
        simp [invokeReadHist, get_session_history, hlook2, h2, hrecs,
          getRec_setRec_ne _ _ hne2, getRec_append_lt _ hr2]
    | none =>
      constructor
      · rw [hused1]
        have h2' : invokeUsedRec m mode (invoke m mode st cfg1 in1).1 cfg2 in2 =
            (invoke m mode st cfg1 in1).1.recs.length := by
          simp [invokeUsedRec, get_session_history, hlook2, h2]
        rw [h2', hlen]
        exact Nat.succ_ne_self _
      · rw [invokeReadHist_none (by rw [hlook2]; exact h2), invokeReadHist_none h2]

/-- C1 witness: starting from the empty world, an invocation under
`session_id = "abc123"` and a subsequent invocation under
`session_id = "def234"` use distinct records, and the second reads an
unchanged (empty) history. -/
theorem c1_history_isolation_witness :
    invokeUsedRec (fun _ s => s) FactoryMode.sessionOnly
        (invoke (fun _ s => s) FactoryMode.sessionOnly HState.empty
          { session_id := some "abc123", user_id := none, conversation_id := none }
          "What does cosine mean?").1
        { session_id := some "def234", user_id := none, conversation_id := none }
        "What?" ≠
      invokeUsedRec (fun _ s => s) FactoryMode.sessionOnly HState.empty
        { session_id := some "abc123", user_id := none, conversation_id := none }
        "What does cosine mean?" ∧
    invokeReadHist FactoryMode.sessionOnly
        (invoke (fun _ s => s) FactoryMode.sessionOnly HState.empty
          { session_id := some "abc123", user_id := none, conversation_id := none }
          "What does cosine mean?").1
        { session_id := some "def234", user_id := none, conversation_id := none } =
      invokeReadHist FactoryMode.sessionOnly HState.empty
        { session_id := some "def234", user_id := none, conversation_id := none } :=
  c1_history_isolation (fun _ s => s) FactoryMode.sessionOnly HState.empty
    { session_id := some "abc123", user_id := none, conversation_id := none }
    { session_id := some "def234", user_id := none, conversation_id := none }
    "What does cosine mean?" "What?" WF_empty (by decide)

/-! ## Part III: the notebook code cells as statements -/

/-- What a statement wraps an external call in: nothing, a
`try`/`except` handler, a local retry loop, or a local timeout guard. -/
inductive Wrapper where
  | bare
  | tryExcept
  | retryLoop
  | timeoutGuard
deriving DecidableEq, Repr

/-- How a statement issues an external call: as a single synchronous
call, on a spawned thread, or as a scheduled asynchronous task. -/
inductive Exec where
  | sync
  | thread
  | asyncTask
deriving DecidableEq, Repr

/-- One external call as a statement issues it: the callee, what the
statement wraps the call in, how it issues it, and how many times it
issues the call per item. -/
structure ExtCall where
  callee : String
  wrapper : Wrapper
  exec : Exec
  attempts : Nat
deriving DecidableEq, Repr

/-- A top-level statement of a notebook code cell. -/
inductive Stmt where
  | pyImport (modules : List String)
  | assign (lhs : String)
  | defFn (nm : String)
  | call (c : ExtCall)
  | loopCalls (iterations : Nat) (c : ExtCall)
  | pipInstall (pkgs : String)
  | ctorExpr (nm : String)
  | commentOnly
deriving DecidableEq, Repr

/-- A bare, synchronous, once-issued external call. -/
def bareCall (callee : String) : Stmt :=
  .call { callee := callee, wrapper := .bare, exec := .sync, attempts := 1 }

/-- The code cells of the self-query retriever notebook, statement by
statement: setup and imports; the `docs` list and the ingest loop
`for doc in docs: vectara.add_texts(...)`; retriever construction; five
`retriever.invoke` calls; the `enable_limit=True` reconstruction; one
more `retriever.invoke`; a trailing empty cell. -/
def nbRetrieverCells : List (List Stmt) :=
  [ [ .pyImport ["os"], .pyImport ["langchain_core.documents"],
      .assign "os.environ[VECTARA_API_KEY]",
      .assign "os.environ[VECTARA_CORPUS_ID]",
      .assign "os.environ[VECTARA_CUSTOMER_ID]",
      .pyImport ["langchain.chains.query_constructor.schema",
                 "langchain.retrievers.self_query.base",
                 "langchain_community.vectorstores",
                 "langchain_openai.chat_models"] ],
    [ .assign "docs", .assign "vectara",
      .loopCalls 6
        { callee := "vectara.add_texts", wrapper := .bare, exec := .sync,
          attempts := 1 } ],
    [ .assign "metadata_field_info", .assign "document_content_description",
      .assign "llm", .assign "retriever" ],
    [ bareCall "retriever.invoke" ],
    [ bareCall "retriever.invoke" ],
    [ bareCall "retriever.invoke" ],
    [ bareCall "retriever.invoke" ],
    [ bareCall "retriever.invoke" ],
    [ .assign "retriever" ],
    [ bareCall "retriever.invoke" ],
    [] ]

/-- The code cells of the message-history notebook, statement by
statement: model setup; prompt and chain construction; the in-memory
`store`, `get_session_history` and wrapper construction; three
`with_message_history.invoke` calls; the
`(user_id, conversation_id)` variant and its invocation; the
`RunnableParallel` example and its two invocations; two bare wrapper
constructions; the Redis section with its two invocations. -/
def nbHistoryCells : List (List Stmt) :=
  [ [ .pipInstall "langchain langchain_anthropic",
      .pyImport ["os", "getpass", "langchain_anthropic"],
      .assign "os.environ[ANTHROPIC_API_KEY]", .assign "model" ],
    [ .pyImport ["langchain_core.prompts", "langchain_openai.chat_models"],
      .assign "prompt", .assign "runnable" ],
    [ .pyImport ["langchain_community.chat_message_histories",
                 "langchain_core.chat_history",
                 "langchain_core.runnables.history"],
      .assign "store", .defFn "get_session_history",
      .assign "with_message_history" ],
    [ bareCall "with_message_history.invoke" ],
    [ bareCall "with_message_history.invoke" ],
    [ bareCall "with_message_history.invoke" ],
    [ .pyImport ["langchain_core.runnables"], .assign "store",
      .defFn "get_session_history", .assign "with_message_history",
      bareCall "with_message_history.invoke" ],
    [ .pyImport ["langchain_core.messages", "langchain_core.runnables"],
      .assign "chain", .defFn "get_session_history",
      .assign "with_message_history",
      bareCall "with_message_history.invoke" ],
    [ bareCall "with_message_history.invoke" ],
    [ .ctorExpr "RunnableWithMessageHistory" ],
    [ .pyImport ["operator"], .ctorExpr "RunnableWithMessageHistory" ],
    [ .pipInstall "redis" ],
    [ .assign "REDIS_URL" ],
    [ .commentOnly ],
    [ .pyImport ["langchain_community.chat_message_histories"],
      .defFn "get_message_history", .assign "with_message_history" ],
    [ bareCall "with_message_history.invoke" ],
    [ bareCall "with_message_history.invoke" ] ]

/-- All code cells of the repository's notebooks. -/
def notebookCells : List (List Stmt) := nbRetrieverCells ++ nbHistoryCells

/-- The external calls a statement issues. -/
def stmtCalls : Stmt → List ExtCall
  | .call c => [c]
  | .loopCalls _ c => [c]
  | _ => []

/-- Every external call issued anywhere in the notebooks. -/
def notebookCalls : List ExtCall :=
  (notebookCells.flatten.map stmtCalls).flatten

/-- C6: no statement of any notebook code cell wraps an external call
(document ingest, retrieval, or history-aware invocation) in an
exception handler, retry, or timeout — every call is issued bare, so
errors raised by the external client libraries propagate unchanged to
the caller. -/
theorem c6_no_error_handling :
    (notebookCalls.all fun c => c.wrapper == Wrapper.bare) = true := by
  decide

/-- C7: every external call in the notebooks is a single synchronous
call: none is issued on a spawned thread or as an asynchronous task,
and none is reissued locally. -/
theorem c7_single_synchronous_calls :
    (notebookCalls.all fun c => c.exec == Exec.sync && c.attempts == 1) = true := by
  decide
